import Mathlib

/-!
Verification development for the autonomous campaign builder.

The Python sources are shallowly embedded as executable Lean
definitions: machine side effects (the LLM network call, the Chroma
similarity search, SMTP delivery, the recipients CSV, the wall clock)
become explicit oracle parameters, and exceptions become `Except` /
`Option` results.  Definitions keep the source names where Lean
allows it; each definition cites the file and lines it embeds.
-/

namespace CampaignBuilder

/-! ## Python string primitives

Everything works on `List Char` so that proofs and concrete
evaluations reduce by plain list computation.  `pyIsSpace` is the
character class of Python's `str.strip()` / the regex class `\s`
(space, tab, newline, carriage return, vertical tab, form feed).
-/

def pyIsSpace (c : Char) : Bool :=
  c = ' ' || c = '\t' || c = '\n' || c = '\r' || c = '\x0b' || c = '\x0c'

/-- Python `str.strip()` on a character list. -/
def stripL (cs : List Char) : List Char :=
  ((cs.dropWhile pyIsSpace).reverse.dropWhile pyIsSpace).reverse

/-- Python `str.strip()`. -/
def pyStrip (s : String) : String :=
  String.mk (stripL s.toList)

/-- Python `str.lower()` (the messages and markers involved are ASCII). -/
def pyLower (s : String) : String :=
  String.mk (s.toList.map Char.toLower)

/-- Whether `pat` occurs as a contiguous substring (Python `in`). -/
def containsL (pat : List Char) : List Char → Bool
  | [] => pat.isEmpty
  | l@(_ :: rest) => pat.isPrefixOf l || containsL pat rest

/-- Python `needle in hay` for strings. -/
def strContains (hay needle : String) : Bool :=
  containsL needle.toList hay.toList

/-- Split on `'\n'`, mirroring how Python's `re` MULTILINE flag sees
line starts (a line start is position 0 or any position after a
`'\n'`). -/
def splitLinesL : List Char → List (List Char)
  | [] => [[]]
  | '\n' :: rest => [] :: splitLinesL rest
  | c :: rest =>
    match splitLinesL rest with
    | [] => [[c]]
    | l :: ls => (c :: l) :: ls

/-- Inverse of `splitLinesL`: join with `'\n'`. -/
def joinLinesL : List (List Char) → List Char
  | [] => []
  | [l] => l
  | l :: ls => l ++ '\n' :: joinLinesL ls

/-- Python `str.split()` (split on runs of whitespace, no empties). -/
def pySplitWsL : List Char → List (List Char)
  | [] => []
  | c :: rest =>
    if pyIsSpace c then pySplitWsL rest
    else
      match pySplitWsL rest with
      | [] => [[c]]
      | w :: ws =>
        match rest with
        | [] => [[c]]
        | r :: _ => if pyIsSpace r then [c] :: w :: ws else (c :: w) :: ws

/-- Python `str.split()` on strings. -/
def pySplitWs (s : String) : List String :=
  (pySplitWsL s.toList).map String.mk

/-- If `pat` is a prefix of `l`, return the remainder of `l` after it. -/
def dropPrefixL : List Char → List Char → Option (List Char)
  | [], l => some l
  | _ :: _, [] => none
  | p :: ps, c :: cs => if p = c then dropPrefixL ps cs else none

/-- Python `str.replace(pat, repl)` for a non-empty pattern
`p :: ps`: left-to-right, non-overlapping.  Structural recursion on a
fuel bound: every step strictly shortens the list, and the wrapper
passes `length + 1` fuel, so the `0` case is unreachable. -/
def replaceAllGo (p : Char) (ps repl : List Char) : Nat → List Char → List Char
  | 0, l => l
  | _ + 1, [] => []
  | fuel + 1, c :: rest =>
    if (dropPrefixL (p :: ps) (c :: rest)).isSome then
      repl ++ replaceAllGo p ps repl fuel (rest.drop ps.length)
    else c :: replaceAllGo p ps repl fuel rest

/-- Python `str.replace(pat, repl)` for a non-empty pattern. -/
def replaceAllL (p : Char) (ps repl l : List Char) : List Char :=
  replaceAllGo p ps repl (l.length + 1) l

/-- Python `str.replace` on strings (every pattern the sources pass
is non-empty; an empty pattern leaves the string unchanged here). -/
def pyReplace (s pat repl : String) : String :=
  match pat.toList with
  | [] => s
  | p :: ps => String.mk (replaceAllL p ps repl.toList s.toList)

/-! ## Generation Client (`src/core/llm.py`)

`llm.invoke([HumanMessage(content=prompt)])` is modelled by an oracle
`llm : Nat → LLMResponse` giving, for each attempt number, either a
message with text content, a falsy (`None`) result, or a raised
exception carrying its message string.
-/

/-- One backend call: returns a message, returns `None`, or raises. -/
inductive LLMResponse where
  | ok (content : String)
  | falsy
  | raise (msg : String)

/-- An exception escaping the body of `safe_llm_invoke`
(`src/core/llm.py` lines 80-106): either the `ValueError` built for
authentication-classified errors (line 101) or the original
exception re-raised (lines 95 and 106). -/
inductive RaisedErr where
  | valueError (msg : String)
  | reraised (msg : String)
deriving DecidableEq

/-- Rate-limit markers (`src/core/llm.py` line 87). -/
def rateLimitMarkers : List String := ["quota", "429", "rate limit", "too many requests"]

/-- Authentication markers (`src/core/llm.py` line 98). -/
def authMarkers : List String := ["authentication", "auth", "key", "unauthorized", "401"]

/-- The body of `safe_llm_invoke` for attempt `i`
(`src/core/llm.py` lines 81-106): invoke the backend; on an
exception, classify its lowercased message.  A rate-limit-classified
error sleeps and re-raises (lines 87-95), an authentication-classified
error raises a `ValueError` (lines 98-101), anything else re-raises
(line 106).  Sleeps are invisible to the state. -/
def safe_llm_invoke_body (llm : Nat → LLMResponse) (i : Nat) :
    Except RaisedErr (Option String) :=
  match llm i with
  | .ok content => .ok (some content)
  | .falsy => .ok none
  | .raise msg =>
    let error_message := pyLower msg
    if rateLimitMarkers.any (fun t => strContains error_message t) then
      .error (.reraised msg)
    else if authMarkers.any (fun t => strContains error_message t) then
      .error (.valueError ("API authentication failed. Please check your API key: " ++ msg))
    else
      .error (.reraised msg)

/-- Result of the tenacity-decorated call: either the value returned
by the body, or tenacity's `RetryError` after the stop condition,
recording how many attempts ran and the last exception. -/
inductive InvokeOutcome where
  | value (response : Option String)
  | retryError (attempts : Nat) (last : RaisedErr)
deriving DecidableEq

/-- The `@retry(stop=stop_after_attempt(5), wait=wait_exponential(...))`
decorator on `safe_llm_invoke` (`src/core/llm.py` line 79).  No
`retry=` predicate is passed, so tenacity's default applies: EVERY
exception raised by the body is retried, including the `ValueError`
built for authentication errors; after the 5th failed attempt a
`RetryError` wrapping the last exception is raised
(`reraise` defaults to `False`). -/
def tenacityLoop (llm : Nat → LLMResponse) (attempt : Nat) : Nat → InvokeOutcome
  | 0 => .value none
  | remaining + 1 =>
    match safe_llm_invoke_body llm attempt with
    | .ok v => .value v
    | .error e =>
      if remaining = 0 then .retryError attempt e
      else tenacityLoop llm (attempt + 1) remaining

/-- `safe_llm_invoke(llm, prompt)` (`src/core/llm.py` lines 79-106):
5 attempts total, first attempt numbered 1. -/
def safe_llm_invoke (llm : Nat → LLMResponse) : InvokeOutcome :=
  tenacityLoop llm 1 5

/-! ## State and retrieval index (`src/core/state.py`, Chroma handle) -/

/-- A document returned by `similarity_search`: its text and the one
metadata key the stages read (`metadata.get("category", "")`). -/
structure RetrievedDoc where
  page_content : String
  category : String
deriving DecidableEq

/-- A `similarity_search(query, k)` call either returns documents or
raises. -/
inductive SearchOutcome where
  | ok (docs : List RetrievedDoc)
  | raise (msg : String)

/-- The opaque vector-store handle held in `state.vector_db`: its one
observable operation. -/
structure VectorDB where
  similarity_search : String → Nat → SearchOutcome

/-- A record appended to `state.sent_emails`
(`src/agents/send_emails.py` lines 320-326). -/
structure EmailRecord where
  customer_id : String
  name : String
  email : String
  subject : String
  timestamp : String
deriving DecidableEq

/-- A record appended to `state.email_templates`
(`src/agents/send_emails.py` lines 313-317). -/
structure EmailTemplate where
  subject : String
  content : String
deriving DecidableEq

/-- `CampaignState` (`src/core/state.py` lines 4-23).  `sales_data`
and `industry_data` are only threaded through, so their contents are
abstracted to plain strings. -/
structure CampaignState where
  goal : String
  vector_db : Option VectorDB
  sales_data : List String
  industry_data : Option String := none
  selected_domain : String := "automotives"
  selected_llm : String := "gemini"
  market_analysis : Option String := none
  audience_segments : Option String := none
  campaign_strategy : Option String := none
  campaign_content : Option String := none
  simulation_results : Option String := none
  final_report : Option String := none
  email_status : Option String := none
  sent_emails : List EmailRecord := []
  email_templates : List EmailTemplate := []
  workflow_status : String := "running"
  awaiting_ui_action : Bool := false

/-- `state.selected_domain.lower().replace("-", "")`, shared by every
agent module. -/
def normalizeDomain (selected_domain : String) : String :=
  pyReplace (pyLower selected_domain) "-" ""

/-! ## The six workflow stage functions

Each agent builds a prompt (pure string assembly from prior fields,
abstracted away where it cannot affect the stored output), calls
`safe_llm_invoke` once, and writes exactly one field:
`response.content if response else <fallback>`.  An exception from
`safe_llm_invoke` (tenacity's `RetryError`) is not caught by any
agent, so it propagates and the stage fails; this is the `Except`
error case.
-/

/-- Lines 100-102 of `src/agents/segment_audience.py`: the sentinel
strings replaced by default segments. -/
def segmentSentinels : List String :=
  ["Vector database search failed. Using default segmentation.",
   "Vector database not available. Using default segmentation."]

/-- Domain-keyed default segments (`src/agents/segment_audience.py`
lines 81-97); `.get(domain, default_segments["automobiles"])`. -/
def default_segments (domain : String) : String :=
  if domain = "healthcare" then
    "\n        - Segment 1: Young families (25-40), preventive care focus, digital-first approach\n        - Segment 2: Seniors (65+), chronic condition management, prefer in-person care\n        - Segment 3: Middle-aged adults (40-65), wellness-oriented, mix of virtual and in-person\n        "
  else if domain = "powerenergy" then
    "\n        - Segment 1: Eco-conscious homeowners, interested in renewable energy, willing to pay premium\n        - Segment 2: Budget-conscious consumers, focused on cost savings and efficiency\n        - Segment 3: Tech-savvy early adopters, interested in smart home integration\n        "
  else
    "\n        - Segment 1: Urban professionals (25-45), prefer SUVs, interested in hybrid/electric options\n        - Segment 2: Suburban families (30-50), prefer larger vehicles, safety-conscious\n        - Segment 3: Outdoor enthusiasts (20-60), prefer rugged vehicles with off-road capabilities\n        "

/-- `"\n\n".join(...)` -/
def joinNN (xs : List String) : String :=
  String.intercalate "\n\n" xs

/-- The audience-segment search query
(`src/agents/segment_audience.py` lines 48-56): keywords are the
goal's lowercased words longer than 3 characters. -/
def segmentQuery (state : CampaignState) : String :=
  let goal_keywords := pySplitWs (pyLower state.goal)
  let search_terms := String.intercalate " " (goal_keywords.filter (fun t => 3 < t.length))
  normalizeDomain state.selected_domain ++ " customer segments interested in " ++ search_terms

/-- The `segment_info` block of `segment_audience`
(`src/agents/segment_audience.py` lines 51-102): query the vector
store if present, keep the `customer`-category documents (else all
documents), and on absence or error fall through a sentinel into the
domain default. -/
def segmentInfoOf (state : CampaignState) : String :=
  let domain := normalizeDomain state.selected_domain
  let segment_info :=
    match state.vector_db with
    | some db =>
      match db.similarity_search (segmentQuery state) 2 with
      | .ok docs =>
        let customer_info := joinNN ((docs.filter (fun d => d.category = "customer")).map (·.page_content))
        if customer_info = "" then joinNN (docs.map (·.page_content)) else customer_info
      | .raise _ => "Vector database search failed. Using default segmentation."
    | none => "Vector database not available. Using default segmentation."
  if segment_info ∈ segmentSentinels then default_segments domain else segment_info

/-- `segment_audience` (`src/agents/segment_audience.py` lines
39-133).  The prompt interpolates `segmentInfoOf state`; the stage
stores the LLM text or the fallback `"Audience segmentation failed"`. -/
def segment_audience (llm : Nat → LLMResponse) (state : CampaignState) :
    Except RaisedErr CampaignState :=
  let _segment_info := segmentInfoOf state
  match safe_llm_invoke llm with
  | .value (some content) => .ok { state with audience_segments := some content }
  | .value none => .ok { state with audience_segments := some "Audience segmentation failed" }
  | .retryError _ last => .error last

/-- Lines 103-104 of `src/agents/create_strategy.py`: sentinel strings
replaced by default campaigns. -/
def strategySentinels : List String :=
  ["Vector database search failed. Using default campaigns.",
   "Vector database not available. Using default campaigns."]

/-- Domain-keyed default past campaigns
(`src/agents/create_strategy.py` lines 66-100);
`.get(domain, default_campaigns["automobiles"])`. -/
def default_campaigns (domain : String) : String :=
  if domain = "healthcare" then
    "\n        Past Campaign 1: Preventive Care Awareness\n        - 30% increase in checkup appointments\n        - Focus on early detection benefits\n        - Digital health integration\n        \n        Past Campaign 2: Family Health Initiative\n        - 25% new patient registration\n        - Multi-generational care approach\n        - Community outreach success\n        "
  else if domain = "powerenergy" then
    "\n        Past Campaign 1: Green Energy Switch\n        - 40% increase in solar adoption\n        - Focus on cost savings\n        - Smart home integration\n        \n        Past Campaign 2: Energy Efficiency Program\n        - 20% reduction in consumption\n        - Rebate program success\n        - Community engagement\n        "
  else
    "\n        Past Campaign 1: Spring SUV Sales Event\n        - 20% increase in SUV test drives\n        - Focus on family safety features\n        - Digital and dealership integration\n        \n        Past Campaign 2: Year-End Clearance\n        - 15% sales increase\n        - Competitive financing offers\n        - Multi-channel marketing approach\n        "

/-- The past-campaigns search query
(`src/agents/create_strategy.py` line 52). -/
def strategyQuery (state : CampaignState) : String :=
  "successful " ++ normalizeDomain state.selected_domain ++ " campaigns for " ++ state.goal

/-- The `past_campaigns` block of `create_campaign_strategy`
(`src/agents/create_strategy.py` lines 47-105). -/
def pastCampaignsOf (state : CampaignState) : String :=
  let domain := normalizeDomain state.selected_domain
  let past_campaigns :=
    match state.vector_db with
    | some db =>
      match db.similarity_search (strategyQuery state) 2 with
      | .ok docs =>
        let campaign_info := joinNN ((docs.filter (fun d => d.category = "campaign")).map (·.page_content))
        if campaign_info = "" then joinNN (docs.map (·.page_content)) else campaign_info
      | .raise _ => "Vector database search failed. Using default campaigns."
    | none => "Vector database not available. Using default campaigns."
  if past_campaigns ∈ strategySentinels then default_campaigns domain else past_campaigns

/-- `create_campaign_strategy` (`src/agents/create_strategy.py` lines
39-141); stores the LLM text or `"Strategy generation failed"`. -/
def create_campaign_strategy (llm : Nat → LLMResponse) (state : CampaignState) :
    Except RaisedErr CampaignState :=
  let _past_campaigns := pastCampaignsOf state
  match safe_llm_invoke llm with
  | .value (some content) => .ok { state with campaign_strategy := some content }
  | .value none => .ok { state with campaign_strategy := some "Strategy generation failed" }
  | .retryError _ last => .error last

/-- `research_market_trends` (`src/agents/research_market.py` lines
39-168): the Tavily search and sales-data summary only shape the
prompt, which the LLM oracle absorbs; the stage stores the LLM text
or `"No insights available"` (line 167). -/
def research_market_trends (llm : Nat → LLMResponse) (state : CampaignState) :
    Except RaisedErr CampaignState :=
  match safe_llm_invoke llm with
  | .value (some content) => .ok { state with market_analysis := some content }
  | .value none => .ok { state with market_analysis := some "No insights available" }
  | .retryError _ last => .error last

/-- `generate_content` (`src/agents/generate_content.py` lines 39-95);
stores the LLM text or `"Content generation failed"`. -/
def generate_content (llm : Nat → LLMResponse) (state : CampaignState) :
    Except RaisedErr CampaignState :=
  match safe_llm_invoke llm with
  | .value (some content) => .ok { state with campaign_content := some content }
  | .value none => .ok { state with campaign_content := some "Content generation failed" }
  | .retryError _ last => .error last

/-- `simulate_campaign` (`src/agents/simulate_campaign.py` lines
up to 99); stores the LLM text or `"Simulation failed"`. -/
def simulate_campaign (llm : Nat → LLMResponse) (state : CampaignState) :
    Except RaisedErr CampaignState :=
  match safe_llm_invoke llm with
  | .value (some content) => .ok { state with simulation_results := some content }
  | .value none => .ok { state with simulation_results := some "Simulation failed" }
  | .retryError _ last => .error last

/-- `generate_final_report` (`src/agents/generate_report.py` lines up
to 86); stores the LLM text or `"Report generation failed"`. -/
def generate_final_report (llm : Nat → LLMResponse) (state : CampaignState) :
    Except RaisedErr CampaignState :=
  match safe_llm_invoke llm with
  | .value (some content) => .ok { state with final_report := some content }
  | .value none => .ok { state with final_report := some "Report generation failed" }
  | .retryError _ last => .error last

/-- `build_campaign_workflow`
(`src/workflows/campaign_workflow.py` lines 5-24): the compiled graph
chains the `AGENT_REGISTRY` entries in insertion order
(`src/agents/__init__.py` lines 9-17) EXCEPT `send_campaign_emails`,
which line 10 filters out.  `llms stage attempt` is the backend
oracle for the given stage's `safe_llm_invoke` call. -/
def run_campaign_workflow (llms : Nat → Nat → LLMResponse) (state : CampaignState) :
    Except RaisedErr CampaignState := do
  let state ← research_market_trends (llms 0) state
  let state ← segment_audience (llms 1) state
  let state ← create_campaign_strategy (llms 2) state
  let state ← generate_content (llms 3) state
  let state ← simulate_campaign (llms 4) state
  generate_final_report (llms 5) state

/-! ## `parse_email_content` (`src/agents/send_emails.py` lines 150-178)

The function is a chain of Python `re` operations on the LLM output.
Each regex is embedded by a dedicated function whose semantics follow
the Python pattern exactly (MULTILINE `^` = position 0 or after a
`'\n'`; `.` never matches `'\n'`; `\s` may, so `\s*` can cross line
boundaries; `$` without MULTILINE relevance here always closes at a
line end reached by a `.`-run).
-/

/-- `"SUBJECT:"` as characters. -/
def subjectTag : List Char := "SUBJECT:".toList

/-- The `\s*(.+)$` tail of `r"^SUBJECT:\s*(.+)$"` matched at the
position right after `SUBJECT:`, where `cs` is the whole rest of the
string (later lines included, since greedy `\s*` may cross
newlines).  Backtracking: with `w` the maximal whitespace run, the
group starts at the largest `k ≤ |w|` whose character exists and is
not `'\n'`; past the end of `w` that is the first non-whitespace
character, inside `w` it is the last non-newline whitespace
character, and the group runs to the end of that line. -/
def subjectTailMatch (cs : List Char) : Option (List Char) :=
  let w := cs.takeWhile pyIsSpace
  let t := cs.drop w.length
  match t with
  | _ :: _ => some (t.takeWhile (fun c => c ≠ '\n'))
  | [] =>
    match w.reverse.find? (fun c => c ≠ '\n') with
    | some c => some [c]
    | none => none

/-- `re.search(r"^SUBJECT:\s*(.+)$", body, re.MULTILINE)` over the
line decomposition of `body`: scan line starts left to right; at a
line starting with `SUBJECT:` try the tail against the remainder of
the whole string; on failure keep scanning. -/
def searchSubjectLines : List (List Char) → Option (List Char)
  | [] => none
  | l :: ls =>
    if subjectTag.isPrefixOf l then
      let rest := l.drop 8 ++ (match ls with | [] => [] | _ :: _ => '\n' :: joinLinesL ls)
      match subjectTailMatch rest with
      | some g => some g
      | none => searchSubjectLines ls
    else searchSubjectLines ls

/-- `re.sub(r"^SUBJECT:.*$", "", body, flags=re.MULTILINE)`: every
line starting with `SUBJECT:` has its content (not its newline)
erased. -/
def subSubjectLinesToEmpty (lines : List (List Char)) : List (List Char) :=
  lines.map (fun l => if subjectTag.isPrefixOf l then [] else l)

/-- The `re.IGNORECASE` anchor test of
`re.search(r"^BODY:\s*(.*)", body, re.DOTALL | re.IGNORECASE)`:
without MULTILINE the `^` only matches at position 0. -/
def bodyTagCI (cs : List Char) : Bool :=
  "body:".toList.isPrefixOf (cs.map Char.toLower)

/-- `re.sub(r"^BODY:\s*", "", body, flags=re.MULTILINE)`.  `\s*` is
greedy and may consume newlines, so a match can swallow following
blank space across lines; the next scan position is a line start
exactly when the last consumed character was a `'\n'`.  `atStart`
tracks whether the current position is a line start. -/
def subBodyTagGo : Nat → Bool → List Char → List Char
  | 0, _, l => l
  | _ + 1, _, [] => []
  | fuel + 1, atStart, c :: rest =>
    if atStart ∧ "BODY:".toList.isPrefixOf (c :: rest) then
      let w := (rest.drop 4).takeWhile pyIsSpace
      subBodyTagGo fuel (w ≠ [] ∧ w.getLast? = some '\n') ((rest.drop 4).drop w.length)
    else c :: subBodyTagGo fuel (c = '\n') rest

/-- Entry point for the `BODY:` prefix substitution; position 0 is a
line start.  Structural recursion on a fuel bound: every step
strictly shortens the list, so `length + 1` fuel never runs out. -/
def subBodyTag (cs : List Char) : List Char :=
  subBodyTagGo (cs.length + 1) true cs

/-- `re.sub(r'^Subject:.*?\n', '', body, flags=re.IGNORECASE | re.MULTILINE)`:
removes every line (with its trailing newline) whose start matches
`Subject:` case-insensitively; the final segment has no trailing
newline and is never removed. -/
def subRemoveSubjectHeaderLines : List (List Char) → List (List Char)
  | [] => []
  | [l] => [l]
  | l :: ls =>
    if "subject:".toList.isPrefixOf (l.map Char.toLower) then subRemoveSubjectHeaderLines ls
    else l :: subRemoveSubjectHeaderLines ls

/-- `parse_email_content` (`src/agents/send_emails.py` lines
150-178), with each numbered step mirroring the source lines:
152-153 defaults, 156-160 subject extraction and removal, 163-165
`BODY:` anchor, 168 stray `SUBJECT:` lines, 169 stray `BODY:`
prefixes, 172-173 subject-duplication guard, 176 leading
`Subject:` lines, 178 final strip. -/
def parse_email_content (email_content : String) : String × String :=
  let subject0 := "Special Offer".toList
  let body0 := stripL email_content.toList
  let lines0 := splitLinesL body0
  let sb :=
    match searchSubjectLines lines0 with
    | some g => (stripL g, stripL (joinLinesL (subSubjectLinesToEmpty lines0)))
    | none => (subject0, body0)
  let subjectL := sb.1
  let body1 := sb.2
  let body2 :=
    if bodyTagCI body1 then stripL ((body1.drop 5).dropWhile pyIsSpace)
    else body1
  let body3 := joinLinesL (subSubjectLinesToEmpty (splitLinesL body2))
  let body4 := subBodyTag body3
  let body5 :=
    if subjectL.isPrefixOf body4 then stripL (body4.drop subjectL.length)
    else body4
  let body6 := joinLinesL (subRemoveSubjectHeaderLines (splitLinesL body5))
  (String.mk subjectL, String.mk (stripL body6))

/-! ## `process_email_formatting` (`src/agents/send_emails.py` lines 124-148) -/

/-- A row of `filtered_customers.csv` as the send-emails stage reads
it.  `email = none` models a missing (NaN) email cell, which the
`notna()` filter removes; `age` and `gender` are kept as the strings
they are interpolated as. -/
structure Customer where
  customer_id : String
  full_name : String
  email : Option String
  age : String
  gender : String
deriving DecidableEq

/-- The lazy body of `re.sub(r'\*\*(.*?)\*\*', ...)`: the earliest
closing `**` in `l` with no newline before it (`.` does not match
`'\n'`), returning the enclosed text and the remainder. -/
def starSplit : List Char → Option (List Char × List Char)
  | [] => none
  | '\n' :: _ => none
  | '*' :: '*' :: rest => some ([], rest)
  | c :: rest => (starSplit rest).map (fun p => (c :: p.1, p.2))

/-- `re.sub(r'\*\*(.*?)\*\*', r'<strong>\1</strong>', content)`:
scan left to right; at an opening `**` find the lazy closing `**`
(no newline in between), else emit the character and move on.
Structural recursion on a fuel bound: every step strictly shortens
the list, so `length + 1` fuel never runs out. -/
def starSubGo : Nat → List Char → List Char
  | 0, l => l
  | _ + 1, [] => []
  | fuel + 1, '*' :: '*' :: rest =>
    match starSplit rest with
    | some (inner, rest2) =>
      "<strong>".toList ++ inner ++ "</strong>".toList ++ starSubGo fuel rest2
    | none => '*' :: starSubGo fuel ('*' :: rest)
  | fuel + 1, c :: rest => c :: starSubGo fuel rest

def starSub (cs : List Char) : List Char :=
  starSubGo (cs.length + 1) cs

/-- `process_email_formatting(content, customer_data)`
(`src/agents/send_emails.py` lines 124-148).  The `FIRST_NAME`
variable is `full_name.split()[0]` when `full_name` is truthy; a
truthy all-whitespace name makes that subscript raise `IndexError`
(modelled as `none`), which the per-recipient `except` in the send
loop turns into a failure. -/
def process_email_formatting (content : String) (customer_data : Customer) : Option String :=
  let first_name? : Option String :=
    if customer_data.full_name ≠ "" then (pySplitWs customer_data.full_name).head?
    else some "Valued Customer"
  match first_name? with
  | none => none
  | some first_name =>
    let subst_vars : List (String × String) :=
      [("CUSTOMER_NAME", customer_data.full_name),
       ("FIRST_NAME", first_name),
       ("EMAIL", customer_data.email.getD ""),
       ("AGE", customer_data.age),
       ("GENDER", customer_data.gender)]
    let content := subst_vars.foldl
      (fun acc v => pyReplace acc ("%" ++ v.1 ++ "%") v.2) content
    let content :=
      if strContains content "**" then String.mk (starSub content.toList) else content
    some content

/-! ## `send_campaign_emails` (`src/agents/send_emails.py` lines 208-342) -/

/-- The machine environment of one run of the send-emails stage:
SMTP configuration and connection, the recipients CSV, the
personalized-generation oracle (`generate_personalized_email`
returns `""` on failure, `src/agents/send_emails.py` lines 53-122),
the per-recipient delivery outcome, and the wall clock for the
`datetime.now().isoformat()` stamp of the iteration numbered by its
zero-based index. -/
structure EmailEnv where
  sender_email : Option String
  sender_password : Option String
  customers : Option (List Customer)
  connect_login_error : Option String
  gen : Customer → String
  send_ok : Customer → Bool
  timestamp : Nat → String

/-- Accumulator of the per-recipient loop
(`src/agents/send_emails.py` lines 245-330). -/
structure SendAcc where
  sent_count : Nat
  failed_count : Nat
  sent_emails : List EmailRecord
  email_templates : List EmailTemplate
deriving DecidableEq

/-- One pass of `for _, customer in customer_data.iterrows()`
(`src/agents/send_emails.py` lines 249-330): generate (empty text
counts as a failure and continues, lines 252-256), parse, format
(an exception there is caught by the per-recipient `except`, line
328), send (a delivery exception likewise), then on success bump the
counter, cache the first template if the cache is empty (lines
308-317), and append the sent record (lines 320-326). -/
def send_emails_loop (env : EmailEnv) : List Customer → Nat → SendAcc → SendAcc
  | [], _, acc => acc
  | customer :: rest, i, acc =>
    let email_content := env.gen customer
    if email_content = "" then
      send_emails_loop env rest (i + 1) { acc with failed_count := acc.failed_count + 1 }
    else
      let sb := parse_email_content email_content
      match process_email_formatting sb.2 customer with
      | none =>
        send_emails_loop env rest (i + 1) { acc with failed_count := acc.failed_count + 1 }
      | some processed_body =>
        if env.send_ok customer then
          let acc := { acc with sent_count := acc.sent_count + 1 }
          let acc :=
            if acc.email_templates = [] then
              { acc with email_templates := [⟨sb.1, processed_body⟩] }
            else acc
          send_emails_loop env rest (i + 1)
            { acc with
              sent_emails := acc.sent_emails ++
                [⟨customer.customer_id, customer.full_name,
                  customer.email.getD "", sb.1, env.timestamp i⟩] }
        else
          send_emails_loop env rest (i + 1) { acc with failed_count := acc.failed_count + 1 }

/-- The summary f-string (`src/agents/send_emails.py` lines 333-337);
its recipient total is the length of the ALREADY TRUNCATED frame. -/
def emailSummary (total sent_count failed_count : Nat) : String :=
  "  Summary:\n            - Total recipients: " ++ toString total ++
  "\n            - Successfully sent: " ++ toString sent_count ++
  "\n            - Failed to send: " ++ toString failed_count ++ "\n            "

/-- `send_campaign_emails(state)` (`src/agents/send_emails.py` lines
208-342), returning the updated state together with the loop's final
success/failure counters.  Paths, in source order: missing
credentials (216-218), missing CSV (224-228), empty valid-email
frame (231-235), the `head(1)` truncation (237-239), SMTP
connect/login failure absorbed by the outer `except` (242-243 and
339-340), then the loop and the final writes (332-337). -/
def send_campaign_emails_core (env : EmailEnv) (state : CampaignState) :
    CampaignState × Nat × Nat :=
  let creds_ok : Bool :=
    match env.sender_email, env.sender_password with
    | some e, some p => e != "" && p != ""
    | _, _ => false
  if ¬ creds_ok then
    ({ state with email_status := some "Email sending failed: Missing email credentials" }, 0, 0)
  else
    match env.customers with
    | none =>
      ({ state with email_status := some "Email sending failed: Customer data file not found" }, 0, 0)
    | some rows =>
      let valid := rows.filter (fun c => c.email.isSome)
      if valid = [] then
        ({ state with email_status := some "No customer emails found" }, 0, 0)
      else
        let customer_data := valid.take 1
        match env.connect_login_error with
        | some msg =>
          ({ state with email_status := some ("Email sending failed: " ++ msg) }, 0, 0)
        | none =>
          let acc := send_emails_loop env customer_data 0
            ⟨0, 0, [], state.email_templates⟩
          ({ state with
              sent_emails := acc.sent_emails,
              email_templates := acc.email_templates,
              email_status := some (emailSummary customer_data.length acc.sent_count acc.failed_count) },
            acc.sent_count, acc.failed_count)

/-- The state-only view of the stage (the Python function returns the
mutated state). -/
def send_campaign_emails (env : EmailEnv) (state : CampaignState) : CampaignState :=
  (send_campaign_emails_core env state).1

/-! ## Retrieval-index construction (`src/chunks.py` lines 49-111) -/

/-- One corpus row as `load_rowwise_documents_from_folder` emits it
(`src/chunks.py` lines 49-64): the flattened text plus the
`source` / `row` / `category` metadata. -/
structure ChunkDoc where
  source : String
  row : Nat
  category : String
  page_content : String
deriving DecidableEq

/-- The stable dedup key `f"{source}_{row}"`
(`src/chunks.py` lines 97 and 103). -/
def docKey (d : ChunkDoc) : String :=
  d.source ++ "_" ++ toString d.row

/-- `embed_and_store(docs, ..., reset)` (`src/chunks.py` lines
67-111) against an abstract persisted collection (`none` = the
persist directory does not exist).  With `reset` the directory is
removed first (line 69); a missing collection is created holding
exactly `docs` (lines 74-83); otherwise the existing metadata keys
are collected (lines 93-98) and only documents whose key is absent
are added (lines 101-108). -/
def embed_and_store (docs : List ChunkDoc) (reset : Bool)
    (store : Option (List ChunkDoc)) : Option (List ChunkDoc) :=
  let store := if reset then none else store
  match store with
  | none => some docs
  | some existing =>
    let existing_keys := existing.map docKey
    let new_docs := docs.filter (fun d => !(existing_keys.contains (docKey d)))
    some (existing ++ new_docs)

/-- The keys currently stored in a collection. -/
def storeKeys (store : Option (List ChunkDoc)) : List String :=
  (store.getD []).map docKey

/-- The store effect of `initialize_vector_db`
(`src/core/vector_db.py` lines 200-318) on the persistent Chroma
collection at `chroma_db_{domain}_{model_provider}` — the
constructor `main.py` line 48 and both UIs use to build
`state.vector_db`.  The loaded documents are written with
`Chroma.from_documents` (first batch of 50, line 263) and
`add_documents` (remaining batches, line 285).  Neither call is
passed document ids, so the langchain wrapper generates a fresh UUID
for every document and appends it to whatever the persisted
collection already holds; no existing `source`/`row` metadata is
consulted.  Batching only splits the append, so the net effect on
the collection is concatenation. -/
def init_vector_db_store (all_docs : List ChunkDoc) (store : List ChunkDoc) : List ChunkDoc :=
  store ++ all_docs

/-! ## Fixtures -/

/-- A freshly constructed pipeline state, as `main.py` lines 58-64
build it (`vector_db` abstracted to absent, which the stages must
tolerate). -/
def sampleInitState : CampaignState :=
  { goal := "Boost Q2 SUV sales in the Western region by 15%"
    vector_db := none
    sales_data := [] }

/-- A backend that always raises a rate-limit-classified error. -/
def rateLimitLlm : Nat → LLMResponse :=
  fun _ => .raise "429 Too Many Requests"

/-- A backend that always raises an authentication-classified error. -/
def authFailLlm : Nat → LLMResponse :=
  fun _ => .raise "401 unauthorized"

/-- A backend that always answers. -/
def okLlm (text : String) : Nat → LLMResponse :=
  fun _ => .ok text

/-! ## Per-stage shape lemmas (shared helpers) -/

theorem research_ok_shape (llm : Nat → LLMResponse) (s s' : CampaignState)
    (h : research_market_trends llm s = .ok s') :
    ∃ t, s' = { s with market_analysis := some t } := by
  unfold research_market_trends at h
  cases hs : safe_llm_invoke llm with
  | value v =>
    rw [hs] at h
    cases v with
    | some c => exact ⟨c, (Except.ok.injEq .. ▸ h :).symm⟩
    | none => exact ⟨_, (Except.ok.injEq .. ▸ h :).symm⟩
  | retryError n e => rw [hs] at h; cases h

theorem segment_ok_shape (llm : Nat → LLMResponse) (s s' : CampaignState)
    (h : segment_audience llm s = .ok s') :
    ∃ t, s' = { s with audience_segments := some t } := by
  unfold segment_audience at h
  cases hs : safe_llm_invoke llm with
  | value v =>
    rw [hs] at h
    cases v with
    | some c => exact ⟨c, (Except.ok.injEq .. ▸ h :).symm⟩
    | none => exact ⟨_, (Except.ok.injEq .. ▸ h :).symm⟩
  | retryError n e => rw [hs] at h; cases h

theorem strategy_ok_shape (llm : Nat → LLMResponse) (s s' : CampaignState)
    (h : create_campaign_strategy llm s = .ok s') :
    ∃ t, s' = { s with campaign_strategy := some t } := by
  unfold create_campaign_strategy at h
  cases hs : safe_llm_invoke llm with
  | value v =>
    rw [hs] at h
    cases v with
    | some c => exact ⟨c, (Except.ok.injEq .. ▸ h :).symm⟩
    | none => exact ⟨_, (Except.ok.injEq .. ▸ h :).symm⟩
  | retryError n e => rw [hs] at h; cases h

theorem content_ok_shape (llm : Nat → LLMResponse) (s s' : CampaignState)
    (h : generate_content llm s = .ok s') :
    ∃ t, s' = { s with campaign_content := some t } := by
  unfold generate_content at h
  cases hs : safe_llm_invoke llm with
  | value v =>
    rw [hs] at h
    cases v with
    | some c => exact ⟨c, (Except.ok.injEq .. ▸ h :).symm⟩
    | none => exact ⟨_, (Except.ok.injEq .. ▸ h :).symm⟩
  | retryError n e => rw [hs] at h; cases h

theorem simulate_ok_shape (llm : Nat → LLMResponse) (s s' : CampaignState)
    (h : simulate_campaign llm s = .ok s') :
    ∃ t, s' = { s with simulation_results := some t } := by
  unfold simulate_campaign at h
  cases hs : safe_llm_invoke llm with
  | value v =>
    rw [hs] at h
    cases v with
    | some c => exact ⟨c, (Except.ok.injEq .. ▸ h :).symm⟩
    | none => exact ⟨_, (Except.ok.injEq .. ▸ h :).symm⟩
  | retryError n e => rw [hs] at h; cases h

theorem report_ok_shape (llm : Nat → LLMResponse) (s s' : CampaignState)
    (h : generate_final_report llm s = .ok s') :
    ∃ t, s' = { s with final_report := some t } := by
  unfold generate_final_report at h
  cases hs : safe_llm_invoke llm with
  | value v =>
    rw [hs] at h
    cases v with
    | some c => exact ⟨c, (Except.ok.injEq .. ▸ h :).symm⟩
    | none => exact ⟨_, (Except.ok.injEq .. ▸ h :).symm⟩
  | retryError n e => rw [hs] at h; cases h

/-! ## Claim C1 -/

/-- C1: the claim says a stage whose Generation-Client calls all fail
with rate-limit-classified errors stores the stage's fallback string
and lets the run complete.  The code does not: `safe_llm_invoke`
re-raises after its 5 attempts (tenacity's `RetryError`, carried in
`InvokeOutcome.retryError`), no agent catches it, so
`research_market_trends` propagates the exception instead of storing
`"No insights available"`, and the workflow run aborts instead of
completing. -/
theorem c1_rate_limit_exhaustion_aborts :
    research_market_trends rateLimitLlm sampleInitState =
      .error (.reraised "429 Too Many Requests") ∧
    run_campaign_workflow (fun _ => rateLimitLlm) sampleInitState =
      .error (.reraised "429 Too Many Requests") := by
  exact ⟨rfl, rfl⟩

/-! ## Claim C2 -/

/-- C2: the claim says an authentication-classified failure is never
retried and surfaces immediately as a distinct error kind.  The
decorator `@retry(stop=stop_after_attempt(5), ...)` passes no
`retry=` predicate, so tenacity retries the auth `ValueError` like
any other exception: with a backend always raising
`"401 unauthorized"`, all 5 attempts run and the caller receives
tenacity's `RetryError` wrapping the `ValueError`, not an immediate
single-attempt failure. -/
theorem c2_auth_error_is_retried_five_times :
    safe_llm_invoke authFailLlm =
      .retryError 5 (.valueError
        "API authentication failed. Please check your API key: 401 unauthorized") ∧
    safe_llm_invoke authFailLlm ≠
      .retryError 1 (.valueError
        "API authentication failed. Please check your API key: 401 unauthorized") := by
  exact ⟨rfl, by decide⟩

/-! ## Claim C3 -/

/-- C3 counterexample: the compiled workflow
(`src/workflows/campaign_workflow.py` line 10) filters
`send_campaign_emails` out, so a pipeline run that completes leaves
`email_status` at `None`: with an always-answering backend the run
finishes `ok` and the seventh output field is still null, refuting
the claim that all seven stage-output fields are non-null strings. -/
theorem c3_completed_run_email_status_none :
    (run_campaign_workflow (fun _ => okLlm "generated text") sampleInitState).map
      (fun s => s.email_status) = .ok none := by
  exact rfl

/-- C3 as amended: a completed workflow run yields non-null strings
in the six fields owned by the six chained stages
(market_analysis, audience_segments, campaign_strategy,
campaign_content, simulation_results, final_report), while
email_status is untouched (it is only written by the separately
invoked send-emails stage). -/
theorem c3_completed_run_six_fields_set (llms : Nat → Nat → LLMResponse)
    (s s' : CampaignState) (h : run_campaign_workflow llms s = .ok s') :
    s'.market_analysis.isSome ∧ s'.audience_segments.isSome ∧
    s'.campaign_strategy.isSome ∧ s'.campaign_content.isSome ∧
    s'.simulation_results.isSome ∧ s'.final_report.isSome ∧
    s'.email_status = s.email_status := by
  unfold run_campaign_workflow at h
  cases h1 : research_market_trends (llms 0) s with
  | error e => rw [h1] at h; simp [Bind.bind, Except.bind] at h
  | ok s1 =>
    rw [h1] at h
    simp only [Bind.bind, Except.bind] at h
    cases h2 : segment_audience (llms 1) s1 with
    | error e => rw [h2] at h; simp [Except.bind] at h
    | ok s2 =>
      rw [h2] at h
      simp only [Except.bind] at h
      cases h3 : create_campaign_strategy (llms 2) s2 with
      | error e => rw [h3] at h; simp [Except.bind] at h
      | ok s3 =>
        rw [h3] at h
        simp only [Except.bind] at h
        cases h4 : generate_content (llms 3) s3 with
        | error e => rw [h4] at h; simp [Except.bind] at h
        | ok s4 =>
          rw [h4] at h
          simp only [Except.bind] at h
          cases h5 : simulate_campaign (llms 4) s4 with
          | error e => rw [h5] at h; simp [Except.bind] at h
          | ok s5 =>
            rw [h5] at h
            simp only [Except.bind] at h
            obtain ⟨t1, rfl⟩ := research_ok_shape _ _ _ h1
            obtain ⟨t2, rfl⟩ := segment_ok_shape _ _ _ h2
            obtain ⟨t3, rfl⟩ := strategy_ok_shape _ _ _ h3
            obtain ⟨t4, rfl⟩ := content_ok_shape _ _ _ h4
            obtain ⟨t5, rfl⟩ := simulate_ok_shape _ _ _ h5
            obtain ⟨t6, rfl⟩ := report_ok_shape _ _ _ h
            simp

/-- Witness for the amended C3 at a concrete run. -/
theorem c3_completed_run_six_fields_set_witness :
    (sampleInitState.email_status = none) ∧
    ∃ s', run_campaign_workflow (fun _ => okLlm "generated text") sampleInitState = .ok s' ∧
      (s'.market_analysis.isSome ∧ s'.audience_segments.isSome ∧
       s'.campaign_strategy.isSome ∧ s'.campaign_content.isSome ∧
       s'.simulation_results.isSome ∧ s'.final_report.isSome ∧
       s'.email_status = sampleInitState.email_status) := by
  constructor
  · rfl
  · exact ⟨_, rfl, c3_completed_run_six_fields_set (fun _ => okLlm "generated text")
      sampleInitState _ rfl⟩

/-! ## Claim C5 -/

theorem send_emails_shape (env : EmailEnv) (s : CampaignState) :
    ∃ es se et, send_campaign_emails env s =
      { s with email_status := es, sent_emails := se, email_templates := et } := by
  unfold send_campaign_emails send_campaign_emails_core
  dsimp only
  repeat' split
  all_goals exact ⟨_, _, _, rfl⟩

/-- A send-emails environment in which the single valid recipient is
generated for and delivered successfully. -/
def happySendEnv : EmailEnv :=
  { sender_email := some "sender@example.com"
    sender_password := some "pw"
    customers := some [⟨"1", "Alice Smith", some "alice@example.com", "34", "F"⟩]
    connect_login_error := none
    gen := fun _ => "SUBJECT: Hello\n\nBODY:\nHi there"
    send_ok := fun _ => true
    timestamp := fun _ => "2026-01-02T00:00:00" }

/-- A completed pipeline state carrying one previously sent record. -/
def completedState : CampaignState :=
  { sampleInitState with
    market_analysis := some "m"
    audience_segments := some "a"
    campaign_strategy := some "st"
    campaign_content := some "c"
    simulation_results := some "sim"
    final_report := some "r"
    email_status := some "old status"
    sent_emails := [⟨"1", "Alice Smith", "alice@example.com", "Hello", "2026-01-01T00:00:00"⟩]
    email_templates := [⟨"Hello", "Hi there"⟩] }

/-- C5 counterexample: re-running the send-emails stage against a
completed state rewrites `sent_emails` (line 332 of
`src/agents/send_emails.py` replaces the whole list, with a fresh
timestamp), so a field other than the stage's status field changes —
refuting the claim that re-running a stage changes only its own
output field. -/
theorem c5_send_rerun_changes_sent_emails :
    (send_campaign_emails happySendEnv completedState).sent_emails ≠
      completedState.sent_emails := by
  decide

/-- C5 as amended: each of the six generation stages changes only its
own output field; the send-emails stage changes only `email_status`,
`sent_emails` and `email_templates`. -/
theorem c5_regeneration_frame (llm : Nat → LLMResponse) (env : EmailEnv)
    (s : CampaignState) :
    (∀ s', research_market_trends llm s = .ok s' →
      s' = { s with market_analysis := s'.market_analysis }) ∧
    (∀ s', segment_audience llm s = .ok s' →
      s' = { s with audience_segments := s'.audience_segments }) ∧
    (∀ s', create_campaign_strategy llm s = .ok s' →
      s' = { s with campaign_strategy := s'.campaign_strategy }) ∧
    (∀ s', generate_content llm s = .ok s' →
      s' = { s with campaign_content := s'.campaign_content }) ∧
    (∀ s', simulate_campaign llm s = .ok s' →
      s' = { s with simulation_results := s'.simulation_results }) ∧
    (∀ s', generate_final_report llm s = .ok s' →
      s' = { s with final_report := s'.final_report }) ∧
    send_campaign_emails env s =
      { s with
        email_status := (send_campaign_emails env s).email_status
        sent_emails := (send_campaign_emails env s).sent_emails
        email_templates := (send_campaign_emails env s).email_templates } := by
  refine ⟨?_, ?_, ?_, ?_, ?_, ?_, ?_⟩
  · intro s' h; obtain ⟨t, rfl⟩ := research_ok_shape _ _ _ h; rfl
  · intro s' h; obtain ⟨t, rfl⟩ := segment_ok_shape _ _ _ h; rfl
  · intro s' h; obtain ⟨t, rfl⟩ := strategy_ok_shape _ _ _ h; rfl
  · intro s' h; obtain ⟨t, rfl⟩ := content_ok_shape _ _ _ h; rfl
  · intro s' h; obtain ⟨t, rfl⟩ := simulate_ok_shape _ _ _ h; rfl
  · intro s' h; obtain ⟨t, rfl⟩ := report_ok_shape _ _ _ h; rfl
  · obtain ⟨es, se, et, heq⟩ := send_emails_shape env s
    rw [heq]

/-- Witness for the amended C5 at a concrete regeneration. -/
theorem c5_regeneration_frame_witness :
    ∃ s', research_market_trends (okLlm "fresh analysis") completedState = .ok s' ∧
      s' = { completedState with market_analysis := s'.market_analysis } :=
  ⟨_, rfl,
    (c5_regeneration_frame (okLlm "fresh analysis") happySendEnv completedState).1 _ rfl⟩

/-! ## Claim C6 -/

/-- C6: if `state.vector_db` is absent, or every similarity search
raises, both retrieval-using stages substitute the fixed
domain-keyed default text block into their prompt context
(`segmentInfoOf` / `pastCampaignsOf` equal the `default_segments` /
`default_campaigns` entry for the normalized domain), and the
retrieval failure does not fail the stage: whenever the generation
call returns a value, both stages still return `ok`. -/
theorem c6_retrieval_failure_uses_domain_defaults (s : CampaignState)
    (llm : Nat → LLMResponse)
    (hdb : s.vector_db = none ∨
      ∃ db, s.vector_db = some db ∧
        ∀ q k, ∃ m, db.similarity_search q k = .raise m) :
    segmentInfoOf s = default_segments (normalizeDomain s.selected_domain) ∧
    pastCampaignsOf s = default_campaigns (normalizeDomain s.selected_domain) ∧
    (∀ v, safe_llm_invoke llm = .value v →
      (∃ s1, segment_audience llm s = .ok s1) ∧
      (∃ s2, create_campaign_strategy llm s = .ok s2)) := by
  refine ⟨?_, ?_, ?_⟩
  · unfold segmentInfoOf
    rcases hdb with h | ⟨db, hsome, hraise⟩
    · rw [h]; simp [segmentSentinels]
    · rw [hsome]
      dsimp only
      obtain ⟨m, hm⟩ := hraise (segmentQuery s) 2
      rw [hm]
      simp [segmentSentinels]
  · unfold pastCampaignsOf
    rcases hdb with h | ⟨db, hsome, hraise⟩
    · rw [h]; simp [strategySentinels]
    · rw [hsome]
      dsimp only
      obtain ⟨m, hm⟩ := hraise (strategyQuery s) 2
      rw [hm]
      simp [strategySentinels]
  · intro v hv
    constructor
    · unfold segment_audience
      rw [hv]
      cases v with
      | some c => exact ⟨_, rfl⟩
      | none => exact ⟨_, rfl⟩
    · unfold create_campaign_strategy
      rw [hv]
      cases v with
      | some c => exact ⟨_, rfl⟩
      | none => exact ⟨_, rfl⟩

/-- Witness for C6: absent index, answering backend. -/
theorem c6_retrieval_failure_uses_domain_defaults_witness :
    sampleInitState.vector_db = none ∧
    segmentInfoOf sampleInitState =
      default_segments (normalizeDomain sampleInitState.selected_domain) ∧
    pastCampaignsOf sampleInitState =
      default_campaigns (normalizeDomain sampleInitState.selected_domain) ∧
    ((∃ s1, segment_audience (okLlm "segments") sampleInitState = .ok s1) ∧
     (∃ s2, create_campaign_strategy (okLlm "segments") sampleInitState = .ok s2)) := by
  have h := c6_retrieval_failure_uses_domain_defaults sampleInitState
    (okLlm "segments") (Or.inl rfl)
  exact ⟨rfl, h.1, h.2.1, h.2.2 (some "segments") rfl⟩

/-! ## Claim C7 -/

/-- C7 counterexample: the pipeline's live index constructor
(`initialize_vector_db`, the one `main.py` and both UIs use to build
`state.vector_db`) has no stable-key dedup — constructing twice over
the same two-row corpus stores the key `sales.csv_0` twice,
refuting the claim that a row key appears at most once in the index
after repeated construction over the same corpus. -/
theorem c7_live_constructor_duplicates :
    ((init_vector_db_store
        [⟨"sales.csv", 0, "sales", "region: West"⟩,
         ⟨"sales.csv", 1, "sales", "region: East"⟩]
        (init_vector_db_store
          [⟨"sales.csv", 0, "sales", "region: West"⟩,
           ⟨"sales.csv", 1, "sales", "region: East"⟩]
          [])).map docKey).count "sales.csv_0" = 2 := by
  decide

/-- C7 as amended: only the `embed_and_store` construction
(`src/chunks.py`) is duplicate-free under repeated construction — it
rebuilds fresh under `reset` and otherwise detects already-indexed
rows by the stable `source_row` key; the live constructor
`initialize_vector_db` appends every row again (see the
counterexample).  Stated: if the corpus rows carry
pairwise-distinct `source_row` keys, then after running
`embed_and_store` twice over the same corpus (with any combination
of the `reset` flag) each key occurs at most once in the stored
collection. -/
theorem c7_reindexing_no_duplicates (docs : List ChunkDoc) (r1 r2 : Bool)
    (hnd : (docs.map docKey).Nodup) :
    (storeKeys (embed_and_store docs r2 (embed_and_store docs r1 none))).Nodup ∧
    ∀ k, (storeKeys (embed_and_store docs r2 (embed_and_store docs r1 none))).count k ≤ 1 := by
  have h1 : embed_and_store docs r1 none = some docs := by
    unfold embed_and_store; cases r1 <;> rfl
  rw [h1]
  have hkeys : storeKeys (embed_and_store docs r2 (some docs)) = docs.map docKey := by
    cases r2 with
    | true => rfl
    | false =>
      have hfil : docs.filter (fun d => !((docs.map docKey).contains (docKey d))) = [] := by
        rw [List.filter_eq_nil_iff]
        intro a ha
        simp only [Bool.not_eq_true', Bool.not_eq_false]
        exact List.elem_eq_true_of_mem (List.mem_map_of_mem docKey ha)
      unfold embed_and_store
      simp only [Bool.false_eq_true, if_false, hfil, List.append_nil, storeKeys,
        Option.getD_some]
  rw [hkeys]
  exact ⟨hnd, fun k => List.nodup_iff_count_le_one.mp hnd k⟩

/-- Witness for C7 at a two-row corpus. -/
theorem c7_reindexing_no_duplicates_witness :
    ((([⟨"sales.csv", 0, "sales", "region: West"⟩,
        ⟨"sales.csv", 1, "sales", "region: East"⟩] : List ChunkDoc).map docKey).Nodup) ∧
    (storeKeys (embed_and_store
        [⟨"sales.csv", 0, "sales", "region: West"⟩, ⟨"sales.csv", 1, "sales", "region: East"⟩]
        false
        (embed_and_store
          [⟨"sales.csv", 0, "sales", "region: West"⟩, ⟨"sales.csv", 1, "sales", "region: East"⟩]
          true none))).Nodup := by
  constructor
  · decide
  · exact (c7_reindexing_no_duplicates _ true false (by decide)).1

/-! ## Claims about the send loop (C4, C8, C9) -/

theorem send_loop_singleton_counts (env : EmailEnv) (c : Customer) (i : Nat)
    (acc : SendAcc) :
    (send_emails_loop env [c] i acc).sent_count +
      (send_emails_loop env [c] i acc).failed_count =
        acc.sent_count + acc.failed_count + 1 ∧
    (send_emails_loop env [c] i acc).sent_emails.length ≤ acc.sent_emails.length + 1 := by
  unfold send_emails_loop
  dsimp only
  repeat' split
  all_goals simp [send_emails_loop]
  all_goals omega

theorem send_loop_singleton_templates (env : EmailEnv) (c : Customer) (i : Nat)
    (acc : SendAcc) :
    (send_emails_loop env [c] i acc).email_templates = acc.email_templates ∨
    (acc.email_templates = [] ∧ env.gen c ≠ "" ∧ env.send_ok c = true ∧
      ∃ pb, process_email_formatting (parse_email_content (env.gen c)).2 c = some pb ∧
        (send_emails_loop env [c] i acc).email_templates =
          [⟨(parse_email_content (env.gen c)).1, pb⟩]) := by
  unfold send_emails_loop
  dsimp only
  by_cases hgen : env.gen c = ""
  · rw [if_pos hgen]
    left
    rfl
  · rw [if_neg hgen]
    cases hpf : process_email_formatting (parse_email_content (env.gen c)).2 c with
    | none => left; rfl
    | some pb =>
      dsimp only
      by_cases hsend : env.send_ok c = true
      · rw [if_pos hsend]
        by_cases hacc : acc.email_templates = []
        · rw [if_pos (by simpa using hacc)]
          right
          exact ⟨hacc, hgen, hsend, pb, rfl, rfl⟩
        · rw [if_neg (by simpa using hacc)]
          left
          rfl
      · rw [if_neg hsend]
        left
        rfl

/-- C9: `send_campaign_emails` truncates the valid-email rows with
`head(1)` (`src/agents/send_emails.py` line 239) before any sending,
so over any recipient file and any generation/delivery outcomes the
final counters satisfy `sent + failed ≤ 1` and at most one sent
record exists (for a run starting with an empty `sent_emails`
list, as the pipeline constructs it). -/
theorem c9_head1_truncates_to_one_recipient (env : EmailEnv) (s : CampaignState)
    (hs : s.sent_emails = []) :
    (send_campaign_emails_core env s).2.1 + (send_campaign_emails_core env s).2.2 ≤ 1 ∧
    (send_campaign_emails env s).sent_emails.length ≤ 1 := by
  unfold send_campaign_emails send_campaign_emails_core
  dsimp only
  split
  · simp [hs]
  · cases hcust : env.customers with
    | none => simp [hs]
    | some rows =>
      dsimp only
      by_cases hval : rows.filter (fun c => c.email.isSome) = []
      · rw [if_pos hval]; simp [hs]
      · rw [if_neg hval]
        cases hconn : env.connect_login_error with
        | some m => simp [hs]
        | none =>
          dsimp only
          cases hv : rows.filter (fun c => c.email.isSome) with
          | nil => exact absurd hv hval
          | cons v vs =>
            simp only [List.take_succ_cons, List.take_zero]
            have h := send_loop_singleton_counts env v 0 ⟨0, 0, [], s.email_templates⟩
            dsimp only at h
            constructor
            · omega
            · simpa using h.2

/-- Witness for C9: three recipients in the file, two with valid
emails, generation succeeding for the first — still at most one
send. -/
theorem c9_head1_truncates_to_one_recipient_witness :
    (sampleInitState.sent_emails = []) ∧
    (send_campaign_emails_core happySendEnv sampleInitState).2.1 +
      (send_campaign_emails_core happySendEnv sampleInitState).2.2 ≤ 1 ∧
    (send_campaign_emails happySendEnv sampleInitState).sent_emails.length ≤ 1 :=
  ⟨rfl, c9_head1_truncates_to_one_recipient happySendEnv sampleInitState rfl⟩

/-- C8: in every run of the send-emails stage at most one template is
appended to `email_templates`, and only when the list was empty
beforehand (`src/agents/send_emails.py` lines 308-317): a non-empty
list is returned unchanged, and an initially empty list ends as
either `[]` or the single `{subject, content}` pair parsed and
formatted from the first successfully generated and delivered
email. -/
theorem c8_one_shot_template_cache (env : EmailEnv) (s : CampaignState) :
    (s.email_templates ≠ [] → (send_campaign_emails env s).email_templates = s.email_templates) ∧
    (s.email_templates = [] →
      (send_campaign_emails env s).email_templates = [] ∨
      ∃ c pb, c ∈ ((env.customers.getD []).filter (fun x => x.email.isSome)).take 1 ∧
        env.gen c ≠ "" ∧ env.send_ok c = true ∧
        process_email_formatting (parse_email_content (env.gen c)).2 c = some pb ∧
        (send_campaign_emails env s).email_templates =
          [⟨(parse_email_content (env.gen c)).1, pb⟩]) := by
  unfold send_campaign_emails send_campaign_emails_core
  dsimp only
  split
  · exact ⟨fun _ => rfl, fun h => Or.inl h⟩
  · cases hcust : env.customers with
    | none => exact ⟨fun _ => rfl, fun h => Or.inl h⟩
    | some rows =>
      dsimp only
      by_cases hval : rows.filter (fun c => c.email.isSome) = []
      · rw [if_pos hval]; exact ⟨fun _ => rfl, fun h => Or.inl h⟩
      · rw [if_neg hval]
        cases hconn : env.connect_login_error with
        | some m => exact ⟨fun _ => rfl, fun h => Or.inl h⟩
        | none =>
          dsimp only
          cases hv : rows.filter (fun c => c.email.isSome) with
          | nil => exact absurd hv hval
          | cons v vs =>
            simp only [List.take_succ_cons, List.take_zero]
            have h := send_loop_singleton_templates env v 0 ⟨0, 0, [], s.email_templates⟩
            constructor
            · intro hne
              rcases h with h | ⟨hempty, _⟩
              · exact h
              · exact absurd hempty hne
            · intro hempty
              rcases h with h | ⟨_, hgen, hsend, pb, hpf, hres⟩
              · left; rw [h]; exact hempty
              · right
                refine ⟨v, pb, ?_, hgen, hsend, hpf, hres⟩
                simp [hv]

/-- Witness for C8: the happy-path environment, starting from an
empty template cache. -/
theorem c8_one_shot_template_cache_witness :
    (sampleInitState.email_templates = []) ∧
    ((send_campaign_emails happySendEnv sampleInitState).email_templates = [] ∨
      ∃ c pb,
        c ∈ ((happySendEnv.customers.getD []).filter (fun x => x.email.isSome)).take 1 ∧
        happySendEnv.gen c ≠ "" ∧ happySendEnv.send_ok c = true ∧
        process_email_formatting (parse_email_content (happySendEnv.gen c)).2 c = some pb ∧
        (send_campaign_emails happySendEnv sampleInitState).email_templates =
          [⟨(parse_email_content (happySendEnv.gen c)).1, pb⟩]) :=
  ⟨rfl, (c8_one_shot_template_cache happySendEnv sampleInitState).2 rfl⟩

/-! ## Claim C4 -/

/-- The C4 scenario: one recipient row with a missing email, two
valid rows, generation failing for exactly one of the valid rows
(the second). -/
def c4Env : EmailEnv :=
  { sender_email := some "sender@example.com"
    sender_password := some "pw"
    customers := some
      [⟨"0", "No Email", none, "40", "M"⟩,
       ⟨"A", "Alice Smith", some "alice@example.com", "34", "F"⟩,
       ⟨"B", "Bob Jones", some "bob@example.com", "45", "M"⟩]
    connect_login_error := none
    gen := fun c => if c.customer_id = "A" then "SUBJECT: Offer\n\nBODY:\nHello Alice" else ""
    send_ok := fun _ => true
    timestamp := fun _ => "2026-02-03T10:00:00" }

/-- C4: the claim (from the spec) expects 1 success and 1 failure and
continued processing after the individual failure.  The code's
`head(1)` truncation (`src/agents/send_emails.py` line 239, marked
"Remove this line in production") processes only the first valid
recipient: the counters come out 1 sent / 0 failed and the second
valid recipient is never attempted. -/
theorem c4_head1_contradicts_batch_counts :
    (send_campaign_emails_core c4Env sampleInitState).2 = (1, 0) ∧
    (send_campaign_emails c4Env sampleInitState).sent_emails.length = 1 := by
  exact ⟨by decide, by decide⟩

/-! ## Claim C10 -/

theorem searchSubjectLines_eq_none (ls : List (List Char))
    (h : ∀ l ∈ ls, subjectTag.isPrefixOf l = false) :
    searchSubjectLines ls = none := by
  induction ls with
  | nil => rfl
  | cons l ls ih =>
    unfold searchSubjectLines
    rw [h l (List.mem_cons_self l ls)]
    exact ih fun x hx => h x (List.mem_cons_of_mem l hx)

/-- C10 counterexample: on the input
`"Subject: xx\nSpecial Offer yes\nBODY: SUBJECT: hi"` the
`BODY:`-prefix substitution (line 169 of
`src/agents/send_emails.py`) manufactures a `SUBJECT:`-initial final
line that line 176 cannot remove (no trailing newline), and the
leading `Subject:` line removal leaves the body starting with the
returned subject — so the returned body both contains a line
beginning with `SUBJECT:` and begins with the subject text,
refuting the claim's two body guarantees. -/
theorem c10_body_guarantees_fail :
    (parse_email_content "Subject: xx\nSpecial Offer yes\nBODY: SUBJECT: hi").1 =
      "Special Offer" ∧
    ((splitLinesL
        (parse_email_content "Subject: xx\nSpecial Offer yes\nBODY: SUBJECT: hi").2.toList).any
      (fun l => subjectTag.isPrefixOf l)) = true ∧
    ((parse_email_content "Subject: xx\nSpecial Offer yes\nBODY: SUBJECT: hi").1.toList.isPrefixOf
      (parse_email_content "Subject: xx\nSpecial Offer yes\nBODY: SUBJECT: hi").2.toList) = true := by
  exact ⟨by decide, by decide, by decide⟩

/-- C10 as amended: `parse_email_content` is total (it is a function
on all strings), and whenever the stripped input has no line
beginning with `SUBJECT:`, the returned subject is the default
`"Special Offer"`.  The two body guarantees of the original claim do
not hold (see the counterexample). -/
theorem c10_default_subject (s : String)
    (h : ∀ l ∈ splitLinesL (stripL s.toList), subjectTag.isPrefixOf l = false) :
    (parse_email_content s).1 = "Special Offer" := by
  unfold parse_email_content
  dsimp only
  rw [searchSubjectLines_eq_none _ h]
  rfl

/-- Witness for the amended C10. -/
theorem c10_default_subject_witness :
    (∀ l ∈ splitLinesL (stripL "hello\nno markers here".toList),
      subjectTag.isPrefixOf l = false) ∧
    (parse_email_content "hello\nno markers here").1 = "Special Offer" :=
  ⟨by decide, c10_default_subject "hello\nno markers here" (by decide)⟩

end CampaignBuilder
